import Mathlib

/-!
Verification development for the OpenGL scene coursework repository.

The definitions below are shallow embeddings of the C++ source files
(`Source/ViewManager.cpp`, `Source/SceneManager.cpp`, `camera.h`).
Machine floats are modelled as exact real numbers (for the trigonometric
mesh generators) or as exact rationals (for the hard-coded vertex tables
and the camera pitch arithmetic); C++ `int` is modelled as `Int` and the
loop counters as `Nat`.
-/

set_option maxHeartbeats 4000000
set_option maxRecDepth 131072

namespace OpenGLScene

/-! ### Vectors (glm::vec3 over exact reals) -/

/-- A 3-component vector, modelling `glm::vec3` with exact reals. -/
structure Vec3 where
  x : ℝ
  y : ℝ
  z : ℝ

instance : Add Vec3 := ⟨fun a b => ⟨a.x + b.x, a.y + b.y, a.z + b.z⟩⟩

instance : Sub Vec3 := ⟨fun a b => ⟨a.x - b.x, a.y - b.y, a.z - b.z⟩⟩

/-- Scalar multiple of a vector (`v * s` on glm vectors). -/
def vscale (v : Vec3) (s : ℝ) : Vec3 := ⟨v.x * s, v.y * s, v.z * s⟩

/-- Cross product, modelling `glm::cross`. -/
def cross (a b : Vec3) : Vec3 :=
  ⟨a.y * b.z - a.z * b.y, a.z * b.x - a.x * b.z, a.x * b.y - a.y * b.x⟩

/-- Vector normalisation, modelling `glm::normalize`. -/
noncomputable def normalizeV (v : Vec3) : Vec3 :=
  let n := Real.sqrt (v.x ^ 2 + v.y ^ 2 + v.z ^ 2)
  ⟨v.x / n, v.y / n, v.z / n⟩

/-- Degrees to radians, modelling `glm::radians`. -/
noncomputable def radians (degrees : ℝ) : ℝ := degrees * Real.pi / 180

/-! ### Camera (`camera.h`, LearnOpenGL camera class) -/

/-- Movement options for the camera, modelling the `Camera_Movement` enum. -/
inductive CameraMovement where
  | FORWARD
  | BACKWARD
  | LEFT
  | RIGHT
  | UP
  | DOWN
deriving DecidableEq

/-- The camera state, modelling the data members of class `Camera`. -/
structure Camera where
  Position : Vec3
  Front : Vec3
  Up : Vec3
  Right : Vec3
  WorldUp : Vec3
  Yaw : ℝ
  Pitch : ℝ
  MovementSpeed : ℝ
  MouseSensitivity : ℝ
  Zoom : ℝ

/-- Default yaw (`const float YAW = -90.0f`). -/
def YAW : ℝ := -90

/-- Default pitch (`const float PITCH = 0.0f`). -/
def PITCH : ℝ := 0

/-- Default movement speed (`const float SPEED = 2.5f`). -/
def SPEED : ℝ := 2.5

/-- Default mouse sensitivity (`const float SENSITIVITY = 0.1f`). -/
def SENSITIVITY : ℝ := 0.1

/-- Default zoom (`const float ZOOM = 45.0f`). -/
def ZOOM : ℝ := 45

/-- Recompute `Front`, `Right` and `Up` from the Euler angles,
modelling `Camera::updateCameraVectors`. -/
noncomputable def updateCameraVectors (c : Camera) : Camera :=
  let front : Vec3 :=
    ⟨Real.cos (radians c.Yaw) * Real.cos (radians c.Pitch),
     Real.sin (radians c.Pitch),
     Real.sin (radians c.Yaw) * Real.cos (radians c.Pitch)⟩
  let newFront := normalizeV front
  let newRight := normalizeV (cross newFront c.WorldUp)
  let newUp := normalizeV (cross newRight newFront)
  { c with Front := newFront, Right := newRight, Up := newUp }

/-- The `Camera` constructor taking vectors (position, up, yaw, pitch). -/
noncomputable def cameraNew (position up : Vec3) (yaw pitch : ℝ) : Camera :=
  updateCameraVectors
    { Position := position
      Front := ⟨0, 0, -1⟩
      Up := ⟨0, 0, 0⟩
      Right := ⟨0, 0, 0⟩
      WorldUp := up
      Yaw := yaw
      Pitch := pitch
      MovementSpeed := SPEED
      MouseSensitivity := SENSITIVITY
      Zoom := ZOOM }

/-- Keyboard-driven movement, modelling `Camera::ProcessKeyboard`. -/
noncomputable def ProcessKeyboard (c : Camera) (direction : CameraMovement)
    (deltaTime : ℝ) : Camera :=
  let velocity := c.MovementSpeed * deltaTime
  let c := if direction = .FORWARD then
      { c with Position := c.Position + vscale c.Front velocity } else c
  let c := if direction = .BACKWARD then
      { c with Position := c.Position - vscale c.Front velocity } else c
  let c := if direction = .LEFT then
      { c with Position := c.Position - vscale c.Right velocity } else c
  let c := if direction = .RIGHT then
      { c with Position := c.Position + vscale c.Right velocity } else c
  let c := if direction = .UP then
      { c with Position := c.Position + vscale c.Up velocity } else c
  let c := if direction = .DOWN then
      { c with Position := c.Position - vscale c.Up velocity } else c
  c

/-- Mouse-driven look, modelling `Camera::ProcessMouseMovement`:
scale the offsets by the sensitivity, add them to yaw/pitch, clamp the
pitch to [-89, 89] when `constrainPitch` is set, then refresh the
direction vectors. -/
noncomputable def ProcessMouseMovement (c : Camera) (xoffset yoffset : ℝ)
    (constrainPitch : Bool) : Camera :=
  let xoffset := xoffset * c.MouseSensitivity
  let yoffset := yoffset * c.MouseSensitivity
  let c := { c with Yaw := c.Yaw + xoffset, Pitch := c.Pitch + yoffset }
  let c :=
    if constrainPitch then
      let c := if c.Pitch > 89 then { c with Pitch := 89 } else c
      let c := if c.Pitch < -89 then { c with Pitch := -89 } else c
      c
    else c
  updateCameraVectors c

/-- A sequence of mouse-movement inputs processed in order, each with
`constrainPitch` true (as every call site in `ViewManager.cpp` does). -/
noncomputable def processMouseMoves (c : Camera) (moves : List (ℝ × ℝ)) : Camera :=
  moves.foldl (fun cam m => ProcessMouseMovement cam m.1 m.2 true) c

/-! ### ViewManager (`Source/ViewManager.cpp`) -/

/-- Window width (`const int WINDOW_WIDTH = 1500`). -/
def WINDOW_WIDTH : ℝ := 1500

/-- Window height (`const int WINDOW_HEIGHT = 1200`). -/
def WINDOW_HEIGHT : ℝ := 1200

/-- Which keys GLFW reports as pressed when `ProcessKeyboardEvents` polls,
one flag per `glfwGetKey` query in the source. -/
structure KeyState where
  keyEscape : Bool
  keyW : Bool
  keyS : Bool
  keyA : Bool
  keyD : Bool
  keyQ : Bool
  keyE : Bool
  keyO : Bool
  keyI : Bool
  keyU : Bool
  keyP : Bool

/-- The `ViewManager` state affected by keyboard processing: the shared
camera, the projection-mode flag, and the GLFW close request. -/
structure ViewState where
  camera : Camera
  bOrthographicProjection : Bool
  shouldClose : Bool

/-- Initial value of the projection flag
(`bool bOrthographicProjection = false;`). -/
def initialOrthographicProjection : Bool := false

/-- One call of `ViewManager::ProcessKeyboardEvents`: each pressed key's
`if` block runs in source order (escape, W, S, A, D, Q, E, then the
projection keys O, I, U, P). -/
noncomputable def ProcessKeyboardEvents (keys : KeyState) (deltaTime : ℝ)
    (st : ViewState) : ViewState :=
  let st := if keys.keyEscape then { st with shouldClose := true } else st
  let st := if keys.keyW then
      { st with camera := ProcessKeyboard st.camera .FORWARD deltaTime } else st
  let st := if keys.keyS then
      { st with camera := ProcessKeyboard st.camera .BACKWARD deltaTime } else st
  let st := if keys.keyA then
      { st with camera := ProcessKeyboard st.camera .LEFT deltaTime } else st
  let st := if keys.keyD then
      { st with camera := ProcessKeyboard st.camera .RIGHT deltaTime } else st
  let st := if keys.keyQ then
      { st with camera := ProcessKeyboard st.camera .UP deltaTime } else st
  let st := if keys.keyE then
      { st with camera := ProcessKeyboard st.camera .DOWN deltaTime } else st
  let st := if keys.keyO then
      { st with bOrthographicProjection := true
                camera := { st.camera with
                  Position := ⟨0, 5, 12⟩
                  Up := ⟨0, 1, 0⟩
                  Front := ⟨0, 0, -1⟩ } } else st
  let st := if keys.keyI then
      { st with bOrthographicProjection := true
                camera := { st.camera with
                  Position := ⟨12, 5, 0⟩
                  Up := ⟨0, 1, 0⟩
                  Front := ⟨-1, 0, 0⟩ } } else st
  let st := if keys.keyU then
      { st with bOrthographicProjection := true
                camera := { st.camera with
                  Position := ⟨0, 16, 2⟩
                  Up := ⟨-1, 0, 0⟩
                  Front := ⟨0, -1, 0⟩ } } else st
  let st := if keys.keyP then
      { st with bOrthographicProjection := false
                camera := { st.camera with
                  Position := ⟨0, 10, 12⟩
                  Front := ⟨0, -0.5, -2⟩
                  Up := ⟨0, 1, 0⟩
                  Zoom := 80 } } else st
  st

/-- The projection matrix request issued by `PrepareSceneView`, recording
which glm builder was called and with which arguments. -/
inductive Projection where
  | perspective (fovy aspect zNear zFar : ℝ)
  | ortho (left rightEdge bottom top zNear zFar : ℝ)

/-- Whether a projection was built with `glm::ortho`. -/
def Projection.isOrtho : Projection → Bool
  | .ortho _ _ _ _ _ _ => true
  | .perspective _ _ _ _ => false

/-- One frame of `ViewManager::PrepareSceneView`: process pending keyboard
events, then build the projection from the (updated) flag - `glm::ortho`
when the flag is set, `glm::perspective` otherwise. -/
noncomputable def PrepareSceneView (keys : KeyState) (deltaTime : ℝ)
    (st : ViewState) : ViewState × Projection :=
  let st := ProcessKeyboardEvents keys deltaTime st
  let projection :=
    if st.bOrthographicProjection = false then
      Projection.perspective (radians st.camera.Zoom)
        (WINDOW_WIDTH / WINDOW_HEIGHT) 0.1 100
    else
      Projection.ortho
        (-WINDOW_WIDTH / (2 * st.camera.Zoom)) (WINDOW_WIDTH / (2 * st.camera.Zoom))
        (-WINDOW_HEIGHT / (2 * st.camera.Zoom)) (WINDOW_HEIGHT / (2 * st.camera.Zoom))
        0.1 100
  (st, projection)

/-! ### SceneManager texture registry (`Source/SceneManager.cpp`) -/

/-- One entry of the texture registry, modelling `TEXTURE_INFO`
(an OpenGL texture ID and the application-level tag string). -/
structure TEXTURE_INFO where
  ID : ℤ
  tag : String
deriving DecidableEq

/-- The texture registry: the `m_textureIDs` array (as a list whose length
is the array's capacity) and the `m_loadedTextures` counter. -/
structure SceneRegistry where
  textureIDs : List TEXTURE_INFO
  loadedTextures : ℕ
deriving DecidableEq

/-- Modelled from the spec: the declaration of `m_textureIDs` lives in
`SceneManager.h`, which is absent from the sources; the spec and the
in-source comments ("There are up to 16 slots", "Up to 16 textures can be
loaded per scene") fix its capacity at 16 entries. -/
def textureSlotCapacity : ℕ := 16

/-- The registry as the `SceneManager` constructor leaves it: every entry
tag set to `"/0"`, every ID set to `-1`, and `m_loadedTextures = 0`. -/
def initialRegistry : SceneRegistry :=
  { textureIDs := List.replicate textureSlotCapacity { ID := -1, tag := "/0" }
    loadedTextures := 0 }

/-- The decode result `stb_image` hands back for an image file: the parsed
width, height and channel count (`stbi_load` out-parameters), or `none`
when the file cannot be decoded. -/
structure ImageData where
  width : ℤ
  height : ℤ
  colorChannels : ℤ
deriving DecidableEq

/-- The index `CreateGLTexture` writes its new entry at: the current value
of `m_loadedTextures`, with no bounds check in the source. -/
def textureWriteIndex (s : SceneRegistry) : ℕ := s.loadedTextures

/-- The registry update on `CreateGLTexture`'s success path: store the new
ID and tag at index `m_loadedTextures`, then increment the counter. -/
def registerTexture (s : SceneRegistry) (textureID : ℤ) (tag : String) :
    SceneRegistry :=
  { textureIDs := s.textureIDs.set (textureWriteIndex s) { ID := textureID, tag := tag }
    loadedTextures := s.loadedTextures + 1 }

/-- One call of `SceneManager::CreateGLTexture`, given the decode outcome
for `filename` and the ID `glGenTextures` produced. Returns the C++
return value, the registry afterwards, and the lines printed to
`std::cout` in order. -/
def CreateGLTexture (decoded : Option ImageData) (textureID : ℤ)
    (filename tag : String) (s : SceneRegistry) :
    Bool × SceneRegistry × List String :=
  match decoded with
  | some img =>
    let loadedMsg := "Successfully loaded image:" ++ filename
    if img.colorChannels = 3 then
      (true, registerTexture s textureID tag, [loadedMsg])
    else if img.colorChannels = 4 then
      (true, registerTexture s textureID tag, [loadedMsg])
    else
      (false, s,
        [loadedMsg, "Not implemented to handle image with unsupported channels"])
  | none => (false, s, ["Could not load image:" ++ filename])

/-- The loaded prefix of the registry array: the entries the scanning
loops (`index < m_loadedTextures`) actually visit. -/
def loadedPrefix (s : SceneRegistry) : List TEXTURE_INFO :=
  s.textureIDs.take s.loadedTextures

/-- The `while` loop of `SceneManager::FindTextureID`: walk the loaded
entries from index 0 and return the first tag match's stored ID. -/
def findTextureIDGo : List TEXTURE_INFO → String → ℤ
  | [], _ => -1
  | e :: rest, tag => if e.tag = tag then e.ID else findTextureIDGo rest tag

/-- `SceneManager::FindTextureID`. -/
def FindTextureID (s : SceneRegistry) (tag : String) : ℤ :=
  findTextureIDGo (loadedPrefix s) tag

/-- The `while` loop of `SceneManager::FindTextureSlot`, carrying the
running index. -/
def findTextureSlotGo : List TEXTURE_INFO → String → ℕ → ℤ
  | [], _, _ => -1
  | e :: rest, tag, index =>
    if e.tag = tag then (index : ℤ) else findTextureSlotGo rest tag (index + 1)

/-- `SceneManager::FindTextureSlot`. -/
def FindTextureSlot (s : SceneRegistry) (tag : String) : ℤ :=
  findTextureSlotGo (loadedPrefix s) tag 0

/-- Stated from the claim's words: the index of the first loaded texture
(scanning from index 0) whose tag equals the argument, `-1` when no loaded
texture has that tag. -/
def findTextureSlotSpec (s : SceneRegistry) (tag : String) : ℤ :=
  match (loadedPrefix s).findIdx? (fun e => e.tag = tag) with
  | some i => (i : ℤ)
  | none => -1

/-- Stated from the claim's words: the stored OpenGL texture ID of the
first loaded texture whose tag equals the argument, `-1` when none has. -/
def findTextureIDSpec (s : SceneRegistry) (tag : String) : ℤ :=
  match (loadedPrefix s).find? (fun e => e.tag = tag) with
  | some e => e.ID
  | none => -1

/-- The 16 (filename, tag) pairs `SceneManager::LoadSceneTextures` passes
to `CreateGLTexture`, in call order. -/
def sceneTextureFiles : List (String × String) :=
  [("textures/floor.png", "floor"),
   ("textures/wallpaper.jpg", "wallpaper"),
   ("textures/ceiling.jpg", "ceiling"),
   ("textures/soda1.png", "soda1"),
   ("textures/soda2.png", "soda2"),
   ("textures/sodatop.png", "soda_top"),
   ("textures/tekken.jpg", "tekken"),
   ("textures/arcade2.png", "arcade2"),
   ("textures/coinslot.png", "coin_slot"),
   ("textures/test2.png", "test"),
   ("textures/testt.jpg", "testt"),
   ("textures/yellow.png", "yellow"),
   ("textures/linen.jpg", "linen"),
   ("textures/leather.jpg", "leather"),
   ("textures/metal2.jpg", "metal2"),
   ("textures/aluminum.png", "aluminum")]

/-- Whether a `CreateGLTexture` call succeeds for a file under a given
decode environment: the image decodes and has 3 or 4 channels. -/
def loadSucceeds (decode : String → Option ImageData) (filename : String) : Bool :=
  match decode filename with
  | some img => img.colorChannels = 3 || img.colorChannels = 4
  | none => false

/-- `SceneManager::LoadSceneTextures`: the 16 `CreateGLTexture` calls in
source order, under a decode environment and a supply of generated
texture IDs (`glGenTextures` results, keyed by filename). -/
def LoadSceneTextures (decode : String → Option ImageData) (idGen : String → ℤ)
    (s : SceneRegistry) : SceneRegistry :=
  sceneTextureFiles.foldl
    (fun acc p =>
      (CreateGLTexture (decode p.1) (idGen p.1) p.1 p.2 acc).2.1)
    s

/-! ### SceneManager material lookup (`Source/SceneManager.cpp`) -/

/-- A Phong material entry, modelling `OBJECT_MATERIAL`. -/
structure OBJECT_MATERIAL where
  diffuseColor : ℚ × ℚ × ℚ
  specularColor : ℚ × ℚ × ℚ
  shininess : ℚ
  tag : String
deriving DecidableEq

/-- The scan loop of `SceneManager::FindMaterial`: on the first tag match
copy the diffuse colour, specular colour and shininess into the caller's
material; otherwise leave it as passed in. -/
def findMaterialGo : List OBJECT_MATERIAL → String → OBJECT_MATERIAL →
    OBJECT_MATERIAL
  | [], _, material => material
  | m :: rest, tag, material =>
    if m.tag = tag then
      { material with
        diffuseColor := m.diffuseColor
        specularColor := m.specularColor
        shininess := m.shininess }
    else findMaterialGo rest tag material

/-- `SceneManager::FindMaterial`: returns the C++ return value paired with
the state of the by-reference `material` parameter afterwards. -/
def FindMaterial (materials : List OBJECT_MATERIAL) (tag : String)
    (material : OBJECT_MATERIAL) : Bool × OBJECT_MATERIAL :=
  if materials.length = 0 then (false, material)
  else (true, findMaterialGo materials tag material)

/-! ### ShapeMeshes (`ShapeMeshes.cpp`, included in `Source/ViewManager.cpp`) -/

/-- The constant `constexpr double Pi = 3.141592653589793` used by the
procedural mesh generators (a rational approximation, not the real pi). -/
def PiConst : ℝ := 3.141592653589793

/-- One interleaved vertex of the fixed layout (3 position floats,
3 normal floats, 2 texture-coordinate floats), with exact rational
components, for the hard-coded vertex tables. -/
structure MeshVertex where
  px : ℚ
  py : ℚ
  pz : ℚ
  nx : ℚ
  ny : ℚ
  nz : ℚ
  tu : ℚ
  tv : ℚ
deriving DecidableEq

/-- One interleaved vertex with real components, for the generated
(trigonometric) vertex tables. -/
structure RVertex where
  px : ℝ
  py : ℝ
  pz : ℝ
  nx : ℝ
  ny : ℝ
  nz : ℝ
  tu : ℝ
  tv : ℝ

/-- The flat float buffer a rational vertex list denotes (the `verts`
array / `vertices` vector the source pushes 8 floats per vertex into). -/
def flattenQ : List MeshVertex → List ℚ
  | [] => []
  | v :: rest =>
    v.px :: v.py :: v.pz :: v.nx :: v.ny :: v.nz :: v.tu :: v.tv :: flattenQ rest

/-- The flat float buffer a real vertex list denotes. -/
def flattenR : List RVertex → List ℝ
  | [] => []
  | v :: rest =>
    v.px :: v.py :: v.pz :: v.nx :: v.ny :: v.nz :: v.tu :: v.tv :: flattenR rest

/-! #### Box mesh (`ShapeMeshes::LoadBoxMesh`) -/

/-- The 24 vertices of the box mesh table, four per face, in source order
(back, bottom, left, right, top, front face). -/
def boxVerts : List MeshVertex :=
  [⟨0.5, 0.5, -0.5, 0, 0, -1, 0, 1⟩,
   ⟨0.5, -0.5, -0.5, 0, 0, -1, 0, 0⟩,
   ⟨-0.5, -0.5, -0.5, 0, 0, -1, 1, 0⟩,
   ⟨-0.5, 0.5, -0.5, 0, 0, -1, 1, 1⟩,
   ⟨-0.5, -0.5, 0.5, 0, -1, 0, 0, 1⟩,
   ⟨-0.5, -0.5, -0.5, 0, -1, 0, 0, 0⟩,
   ⟨0.5, -0.5, -0.5, 0, -1, 0, 1, 0⟩,
   ⟨0.5, -0.5, 0.5, 0, -1, 0, 1, 1⟩,
   ⟨-0.5, 0.5, -0.5, -1, 0, 0, 0, 1⟩,
   ⟨-0.5, -0.5, -0.5, -1, 0, 0, 0, 0⟩,
   ⟨-0.5, -0.5, 0.5, -1, 0, 0, 1, 0⟩,
   ⟨-0.5, 0.5, 0.5, -1, 0, 0, 1, 1⟩,
   ⟨0.5, 0.5, 0.5, 1, 0, 0, 0, 1⟩,
   ⟨0.5, -0.5, 0.5, 1, 0, 0, 0, 0⟩,
   ⟨0.5, -0.5, -0.5, 1, 0, 0, 1, 0⟩,
   ⟨0.5, 0.5, -0.5, 1, 0, 0, 1, 1⟩,
   ⟨-0.5, 0.5, -0.5, 0, 1, 0, 0, 1⟩,
   ⟨-0.5, 0.5, 0.5, 0, 1, 0, 0, 0⟩,
   ⟨0.5, 0.5, 0.5, 0, 1, 0, 1, 0⟩,
   ⟨0.5, 0.5, -0.5, 0, 1, 0, 1, 1⟩,
   ⟨-0.5, 0.5, 0.5, 0, 0, 1, 0, 1⟩,
   ⟨-0.5, -0.5, 0.5, 0, 0, 1, 0, 0⟩,
   ⟨0.5, -0.5, 0.5, 0, 0, 1, 1, 0⟩,
   ⟨0.5, 0.5, 0.5, 0, 0, 1, 1, 1⟩]

/-- The box index table (two triangles per face). -/
def boxIndices : List ℕ :=
  [0, 1, 2, 0, 3, 2,
   4, 5, 6, 4, 7, 6,
   8, 9, 10, 8, 11, 10,
   12, 13, 14, 12, 15, 14,
   16, 17, 18, 16, 19, 18,
   20, 21, 22, 20, 23, 22]

/-- `m_BoxMesh.nVertices = verts.size() / (3 + 3 + 2)`. -/
def boxNVertices : ℕ := (flattenQ boxVerts).length / 8

/-- The four vertices of face `f` of the box (the table lists each face's
vertices contiguously). -/
def boxFaceVerts (f : ℕ) : List MeshVertex := (boxVerts.drop (4 * f)).take 4

/-- The normal components of a rational vertex. -/
def vertexNormal (v : MeshVertex) : ℚ × ℚ × ℚ := (v.nx, v.ny, v.nz)

/-- The position components of a rational vertex. -/
def vertexPos (v : MeshVertex) : ℚ × ℚ × ℚ := (v.px, v.py, v.pz)

/-- Rational dot product. -/
def qdot (a b : ℚ × ℚ × ℚ) : ℚ := a.1 * b.1 + a.2.1 * b.2.1 + a.2.2 * b.2.2

/-- Whether a vector is an axis-aligned unit vector. -/
def axisAlignedUnit (n : ℚ × ℚ × ℚ) : Prop :=
  n = (1, 0, 0) ∨ n = (-1, 0, 0) ∨ n = (0, 1, 0) ∨
  n = (0, -1, 0) ∨ n = (0, 0, 1) ∨ n = (0, 0, -1)

/-- The centroid of a list of vertices (used on one face's four vertices;
the box is centred at the origin, so outwardness of a face normal is the
positivity of its dot product with the face centroid). -/
def centroidOf (l : List MeshVertex) : ℚ × ℚ × ℚ :=
  ((l.map (fun v => v.px)).sum / l.length,
   (l.map (fun v => v.py)).sum / l.length,
   (l.map (fun v => v.pz)).sum / l.length)

/-! #### Sphere mesh (`ShapeMeshes::LoadSphereMesh`) -/

/-- The vertex the sphere generator pushes for latitude step `lat` and
longitude step `lon`: position on the sphere of the given radius, the
unit normal `(sinTheta*cosPhi, cosTheta, sinTheta*sinPhi)`, and the
texture coordinates. -/
noncomputable def sphereVertexAt (latitudeSegments longitudeSegments : ℕ)
    (radius : ℝ) (lat lon : ℕ) : RVertex :=
  let theta : ℝ := lat * PiConst / latitudeSegments
  let sinTheta := Real.sin theta
  let cosTheta := Real.cos theta
  let phi : ℝ := lon * 2 * PiConst / longitudeSegments
  let sinPhi := Real.sin phi
  let cosPhi := Real.cos phi
  { px := radius * sinTheta * cosPhi
    py := radius * cosTheta
    pz := radius * sinTheta * sinPhi
    nx := sinTheta * cosPhi
    ny := cosTheta
    nz := sinTheta * sinPhi
    tu := 1 - (lon : ℝ) / longitudeSegments
    tv := 1 - (lat : ℝ) / latitudeSegments }

/-- The sphere vertex vector: the nested loops
`for lat in [0, latitudeSegments]`, `for lon in [0, longitudeSegments]`. -/
noncomputable def sphereVertices (latitudeSegments longitudeSegments : ℕ)
    (radius : ℝ) : List RVertex :=
  (List.range (latitudeSegments + 1)).flatMap fun lat =>
    (List.range (longitudeSegments + 1)).map fun lon =>
      sphereVertexAt latitudeSegments longitudeSegments radius lat lon

/-- `m_SphereMesh.nVertices = vertices.size() / 8`. -/
noncomputable def sphereNVertices (latitudeSegments longitudeSegments : ℕ)
    (radius : ℝ) : ℕ :=
  (flattenR (sphereVertices latitudeSegments longitudeSegments radius)).length / 8

/-! #### Torus mesh (`ShapeMeshes::LoadTorusMesh`) -/

/-- The parameter validation `mainSegments = std::max(3, mainSegments)`
(resp. tube segments), as the count the loops then run with. -/
def clampSegments (n : ℤ) : ℕ := (max 3 n).toNat

/-- The parameter validation `tubeRadius = std::max(0.01f, tubeRadius)`. -/
noncomputable def clampTubeRadius (r : ℝ) : ℝ := max 0.01 r

/-- The vertex the torus generator pushes for main step `i` and tube step
`j` (after clamping): position, the normalised direction from the ring
centre to the vertex, and the texture coordinates `(i/m, j/t)`. -/
noncomputable def torusVertexAt (mainRadius tubeRadius : ℝ) (m t : ℕ)
    (i j : ℕ) : RVertex :=
  let mainSegmentStep := 2 * PiConst / m
  let tubeSegmentStep := 2 * PiConst / t
  let mainAngle := i * mainSegmentStep
  let cosMain := Real.cos mainAngle
  let sinMain := Real.sin mainAngle
  let tubeAngle := j * tubeSegmentStep
  let cosTube := Real.cos tubeAngle
  let sinTube := Real.sin tubeAngle
  let x := (mainRadius + tubeRadius * cosTube) * cosMain
  let y := (mainRadius + tubeRadius * cosTube) * sinMain
  let z := tubeRadius * sinTube
  let center : Vec3 := ⟨mainRadius * cosMain, mainRadius * sinMain, 0⟩
  let vertex : Vec3 := ⟨x, y, z⟩
  let normal := normalizeV (vertex - center)
  { px := x, py := y, pz := z
    nx := normal.x, ny := normal.y, nz := normal.z
    tu := (i : ℝ) / m, tv := (j : ℝ) / t }

/-- The torus vertex vector: clamp the parameters, then run the nested
loops `for i in [0, mainSegments]`, `for j in [0, tubeSegments]`. -/
noncomputable def torusVertices (mainRadius tubeRadius : ℝ)
    (mainSegments tubeSegments : ℤ) : List RVertex :=
  let m := clampSegments mainSegments
  let t := clampSegments tubeSegments
  let r := clampTubeRadius tubeRadius
  (List.range (m + 1)).flatMap fun i =>
    (List.range (t + 1)).map fun j => torusVertexAt mainRadius r m t i j

/-- The torus index vector: for each quad `(i, j)` with `i < mainSegments`
and `j < tubeSegments`, the six indices of its two triangles. -/
def torusIndices (mainSegments tubeSegments : ℤ) : List ℕ :=
  let m := clampSegments mainSegments
  let t := clampSegments tubeSegments
  (List.range m).flatMap fun i =>
    (List.range t).flatMap fun j =>
      let current := i * (t + 1) + j
      let next := (i + 1) * (t + 1) + j
      [current, next, current + 1, current + 1, next, next + 1]

/-- `m_TorusMesh.nVertices = vertices.size() / 8`. -/
noncomputable def torusNVertices (mainRadius tubeRadius : ℝ)
    (mainSegments tubeSegments : ℤ) : ℕ :=
  (flattenR (torusVertices mainRadius tubeRadius mainSegments tubeSegments)).length / 8

/-- `m_TorusMesh.nIndices = indices.size()`. -/
def torusNIndices (mainSegments tubeSegments : ℤ) : ℕ :=
  (torusIndices mainSegments tubeSegments).length

/-! #### Tapered cylinder mesh (`ShapeMeshes::LoadTaperedCylinderMesh`
and `ShapeMeshes::DrawTaperedCylinderMesh`) -/

/-- The bottom-cap section of the hard-coded `verts` table
(the rows under `// cylinder bottom`). -/
def taperedCylinderBottomVerts : List MeshVertex :=
  [
   MeshVertex.mk (1.0) (0.0) (0.0) (0.0) (-1.0) (0.0) (0.5) (1.0),
   MeshVertex.mk (0.98) (0.0) (-0.17) (0.0) (-1.0) (0.0) (0.41) (0.983),
   MeshVertex.mk (0.94) (0.0) (-0.34) (0.0) (-1.0) (0.0) (0.33) (0.96),
   MeshVertex.mk (0.87) (0.0) (-0.5) (0.0) (-1.0) (0.0) (0.25) (0.92),
   MeshVertex.mk (0.77) (0.0) (-0.64) (0.0) (-1.0) (0.0) (0.17) (0.87),
   MeshVertex.mk (0.64) (0.0) (-0.77) (0.0) (-1.0) (0.0) (0.13) (0.83),
   MeshVertex.mk (0.5) (0.0) (-0.87) (0.0) (-1.0) (0.0) (0.08) (0.77),
   MeshVertex.mk (0.34) (0.0) (-0.94) (0.0) (-1.0) (0.0) (0.04) (0.68),
   MeshVertex.mk (0.17) (0.0) (-0.98) (0.0) (-1.0) (0.0) (0.017) (0.6),
   MeshVertex.mk (0.0) (0.0) (-1.0) (0.0) (-1.0) (0.0) (0.0) (0.5),
   MeshVertex.mk (-0.17) (0.0) (-0.98) (0.0) (-1.0) (0.0) (0.017) (0.41),
   MeshVertex.mk (-0.34) (0.0) (-0.94) (0.0) (-1.0) (0.0) (0.04) (0.33),
   MeshVertex.mk (-0.5) (0.0) (-0.87) (0.0) (-1.0) (0.0) (0.08) (0.25),
   MeshVertex.mk (-0.64) (0.0) (-0.77) (0.0) (-1.0) (0.0) (0.13) (0.17),
   MeshVertex.mk (-0.77) (0.0) (-0.64) (0.0) (-1.0) (0.0) (0.17) (0.13),
   MeshVertex.mk (-0.87) (0.0) (-0.5) (0.0) (-1.0) (0.0) (0.25) (0.08),
   MeshVertex.mk (-0.94) (0.0) (-0.34) (0.0) (-1.0) (0.0) (0.33) (0.04),
   MeshVertex.mk (-0.98) (0.0) (-0.17) (0.0) (-1.0) (0.0) (0.41) (0.017),
   MeshVertex.mk (-1.0) (0.0) (0.0) (0.0) (-1.0) (0.0) (0.5) (0.0),
   MeshVertex.mk (-0.98) (0.0) (0.17) (0.0) (-1.0) (0.0) (0.6) (0.017),
   MeshVertex.mk (-0.94) (0.0) (0.34) (0.0) (-1.0) (0.0) (0.68) (0.04),
   MeshVertex.mk (-0.87) (0.0) (0.5) (0.0) (-1.0) (0.0) (0.77) (0.08),
   MeshVertex.mk (-0.77) (0.0) (0.64) (0.0) (-1.0) (0.0) (0.83) (0.13),
   MeshVertex.mk (-0.64) (0.0) (0.77) (0.0) (-1.0) (0.0) (0.87) (0.17),
   MeshVertex.mk (-0.5) (0.0) (0.87) (0.0) (-1.0) (0.0) (0.92) (0.25),
   MeshVertex.mk (-0.34) (0.0) (0.94) (0.0) (-1.0) (0.0) (0.96) (0.33),
   MeshVertex.mk (-0.17) (0.0) (0.98) (0.0) (-1.0) (0.0) (0.983) (0.41),
   MeshVertex.mk (0.0) (0.0) (1.0) (0.0) (-1.0) (0.0) (1.0) (0.5),
   MeshVertex.mk (0.17) (0.0) (0.98) (0.0) (-1.0) (0.0) (0.983) (0.6),
   MeshVertex.mk (0.34) (0.0) (0.94) (0.0) (-1.0) (0.0) (0.96) (0.68),
   MeshVertex.mk (0.5) (0.0) (0.87) (0.0) (-1.0) (0.0) (0.92) (0.77),
   MeshVertex.mk (0.64) (0.0) (0.77) (0.0) (-1.0) (0.0) (0.87) (0.83),
   MeshVertex.mk (0.77) (0.0) (0.64) (0.0) (-1.0) (0.0) (0.83) (0.87),
   MeshVertex.mk (0.87) (0.0) (0.5) (0.0) (-1.0) (0.0) (0.77) (0.92),
   MeshVertex.mk (0.94) (0.0) (0.34) (0.0) (-1.0) (0.0) (0.68) (0.96),
   MeshVertex.mk (0.98) (0.0) (0.17) (0.0) (-1.0) (0.0) (0.6) (0.983)]

/-- The top-cap section of the hard-coded `verts` table
(the rows under `// cylinder top`). -/
def taperedCylinderTopVerts : List MeshVertex :=
  [
   MeshVertex.mk (0.5) (1.0) (0.0) (0.0) (1.0) (0.0) (0.5) (1.0),
   MeshVertex.mk (0.49) (1.0) (-0.085) (0.0) (1.0) (0.0) (0.41) (0.983),
   MeshVertex.mk (0.47) (1.0) (-0.17) (0.0) (1.0) (0.0) (0.33) (0.96),
   MeshVertex.mk (0.435) (1.0) (-0.25) (0.0) (1.0) (0.0) (0.25) (0.92),
   MeshVertex.mk (0.385) (1.0) (-0.32) (0.0) (1.0) (0.0) (0.17) (0.87),
   MeshVertex.mk (0.32) (1.0) (-0.385) (0.0) (1.0) (0.0) (0.13) (0.83),
   MeshVertex.mk (0.25) (1.0) (-0.435) (0.0) (1.0) (0.0) (0.08) (0.77),
   MeshVertex.mk (0.17) (1.0) (-0.47) (0.0) (1.0) (0.0) (0.04) (0.68),
   MeshVertex.mk (0.085) (1.0) (-0.49) (0.0) (1.0) (0.0) (0.017) (0.6),
   MeshVertex.mk (0.0) (1.0) (-0.5) (0.0) (1.0) (0.0) (0.0) (0.5),
   MeshVertex.mk (-0.085) (1.0) (-0.49) (0.0) (1.0) (0.0) (0.017) (0.41),
   MeshVertex.mk (-0.17) (1.0) (-0.47) (0.0) (1.0) (0.0) (0.04) (0.33),
   MeshVertex.mk (-0.25) (1.0) (-0.435) (0.0) (1.0) (0.0) (0.08) (0.25),
   MeshVertex.mk (-0.32) (1.0) (-0.385) (0.0) (1.0) (0.0) (0.13) (0.17),
   MeshVertex.mk (-0.385) (1.0) (-0.32) (0.0) (1.0) (0.0) (0.17) (0.13),
   MeshVertex.mk (-0.435) (1.0) (-0.25) (0.0) (1.0) (0.0) (0.25) (0.08),
   MeshVertex.mk (-0.47) (1.0) (-0.17) (0.0) (1.0) (0.0) (0.33) (0.04),
   MeshVertex.mk (-0.49) (1.0) (-0.085) (0.0) (1.0) (0.0) (0.41) (0.017),
   MeshVertex.mk (-0.5) (1.0) (0.0) (0.0) (1.0) (0.0) (0.5) (0.0),
   MeshVertex.mk (-0.49) (1.0) (0.085) (0.0) (1.0) (0.0) (0.6) (0.017),
   MeshVertex.mk (-0.47) (1.0) (0.17) (0.0) (1.0) (0.0) (0.68) (0.04),
   MeshVertex.mk (-0.435) (1.0) (0.25) (0.0) (1.0) (0.0) (0.77) (0.08),
   MeshVertex.mk (-0.385) (1.0) (0.32) (0.0) (1.0) (0.0) (0.83) (0.13),
   MeshVertex.mk (-0.32) (1.0) (0.385) (0.0) (1.0) (0.0) (0.87) (0.17),
   MeshVertex.mk (-0.25) (1.0) (0.435) (0.0) (1.0) (0.0) (0.92) (0.25),
   MeshVertex.mk (-0.17) (1.0) (0.47) (0.0) (1.0) (0.0) (0.96) (0.33),
   MeshVertex.mk (-0.085) (1.0) (0.49) (0.0) (1.0) (0.0) (0.983) (0.41),
   MeshVertex.mk (0.0) (1.0) (0.5) (0.0) (1.0) (0.0) (1.0) (0.5),
   MeshVertex.mk (0.085) (1.0) (0.49) (0.0) (1.0) (0.0) (0.983) (0.6),
   MeshVertex.mk (0.17) (1.0) (0.47) (0.0) (1.0) (0.0) (0.96) (0.68),
   MeshVertex.mk (0.25) (1.0) (0.435) (0.0) (1.0) (0.0) (0.92) (0.77),
   MeshVertex.mk (0.32) (1.0) (0.385) (0.0) (1.0) (0.0) (0.87) (0.83),
   MeshVertex.mk (0.385) (1.0) (0.32) (0.0) (1.0) (0.0) (0.83) (0.87),
   MeshVertex.mk (0.435) (1.0) (0.25) (0.0) (1.0) (0.0) (0.77) (0.92),
   MeshVertex.mk (0.47) (1.0) (0.17) (0.0) (1.0) (0.0) (0.68) (0.96),
   MeshVertex.mk (0.49) (1.0) (0.085) (0.0) (1.0) (0.0) (0.6) (0.983)]

/-- The side section of the hard-coded `verts` table
(the rows under `// cylinder body`). -/
def taperedCylinderSideVerts : List MeshVertex :=
  [
   MeshVertex.mk (0.5) (1.0) (0.0) (0.993150651) (0.5) (-0.116841137) (0.25) (1.0),
   MeshVertex.mk (1.0) (0.0) (0.0) (0.993150651) (0.5) (-0.116841137) (0.0) (0.0),
   MeshVertex.mk (0.98) (0.0) (-0.17) (0.993150651) (0.5) (-0.116841137) (0.0277) (0.0),
   MeshVertex.mk (0.5) (1.0) (0.0) (0.993150651) (0.5) (-0.116841137) (0.25) (1.0),
   MeshVertex.mk (0.49) (1.0) (-0.085) (0.993150651) (0.5) (-0.116841137) (0.2635) (1.0),
   MeshVertex.mk (0.98) (0.0) (-0.17) (0.993150651) (0.5) (-0.116841137) (0.0277) (0.0),
   MeshVertex.mk (0.94) (0.0) (-0.34) (0.993417103) (0.5) (-0.229039446) (0.0554) (0.0),
   MeshVertex.mk (0.49) (1.0) (-0.085) (0.993417103) (0.5) (-0.229039446) (0.2635) (1.0),
   MeshVertex.mk (0.47) (1.0) (-0.17) (0.993417103) (0.5) (-0.229039446) (0.277) (1.0),
   MeshVertex.mk (0.94) (0.0) (-0.34) (0.993417103) (0.5) (-0.229039446) (0.0554) (0.0),
   MeshVertex.mk (0.87) (0.0) (-0.5) (0.993417103) (0.5) (-0.229039446) (0.0831) (0.0),
   MeshVertex.mk (0.47) (1.0) (-0.17) (0.993417103) (0.5) (-0.229039446) (0.277) (1.0),
   MeshVertex.mk (0.435) (1.0) (-0.25) (0.813733339) (0.5) (-0.581238329) (0.2905) (1.0),
   MeshVertex.mk (0.87) (0.0) (-0.5) (0.813733339) (0.5) (-0.581238329) (0.0831) (0.0),
   MeshVertex.mk (0.77) (0.0) (-0.64) (0.813733339) (0.5) (-0.581238329) (0.1108) (0.0),
   MeshVertex.mk (0.435) (1.0) (-0.25) (0.813733339) (0.5) (-0.581238329) (0.2905) (1.0),
   MeshVertex.mk (0.385) (1.0) (-0.32) (0.813733339) (0.5) (-0.581238329) (0.304) (1.0),
   MeshVertex.mk (0.77) (0.0) (-0.64) (0.813733339) (0.5) (-0.581238329) (0.1108) (0.0),
   MeshVertex.mk (0.64) (0.0) (-0.77) (0.707106769) (0.5) (-0.707106769) (0.1385) (0.0),
   MeshVertex.mk (0.385) (1.0) (-0.32) (0.707106769) (0.5) (-0.707106769) (0.304) (1.0),
   MeshVertex.mk (0.32) (1.0) (-0.385) (0.707106769) (0.5) (-0.707106769) (0.3175) (1.0),
   MeshVertex.mk (0.64) (0.0) (-0.77) (0.707106769) (0.5) (-0.707106769) (0.1385) (0.0),
   MeshVertex.mk (0.5) (0.0) (-0.87) (0.707106769) (0.5) (-0.707106769) (0.1662) (0.0),
   MeshVertex.mk (0.32) (1.0) (-0.385) (0.707106769) (0.5) (-0.707106769) (0.3175) (1.0),
   MeshVertex.mk (0.25) (1.0) (-0.435) (0.400818795) (0.5) (-0.916157305) (0.331) (1.0),
   MeshVertex.mk (0.5) (0.0) (-0.87) (0.400818795) (0.5) (-0.916157305) (0.1662) (0.0),
   MeshVertex.mk (0.34) (0.0) (-0.94) (0.400818795) (0.5) (-0.916157305) (0.1939) (0.0),
   MeshVertex.mk (0.25) (1.0) (-0.435) (0.400818795) (0.5) (-0.916157305) (0.331) (1.0),
   MeshVertex.mk (0.17) (1.0) (-0.47) (0.400818795) (0.5) (-0.916157305) (0.3445) (1.0),
   MeshVertex.mk (0.34) (0.0) (-0.94) (0.400818795) (0.5) (-0.916157305) (0.1939) (0.0),
   MeshVertex.mk (0.17) (0.0) (-0.98) (0.229039446) (0.5) (-0.973417103) (0.2216) (0.0),
   MeshVertex.mk (0.17) (1.0) (-0.47) (0.229039446) (0.5) (-0.973417103) (0.3445) (1.0),
   MeshVertex.mk (0.085) (1.0) (-0.49) (0.229039446) (0.5) (-0.973417103) (0.358) (1.0),
   MeshVertex.mk (0.17) (0.0) (-0.98) (0.229039446) (0.5) (-0.973417103) (0.2216) (0.0),
   MeshVertex.mk (0.0) (0.0) (-1.0) (0.229039446) (0.5) (-0.973417103) (0.2493) (0.0),
   MeshVertex.mk (0.085) (1.0) (-0.49) (0.229039446) (0.5) (-0.973417103) (0.358) (1.0),
   MeshVertex.mk (0.0) (1.0) (-0.5) (-0.116841137) (0.5) (-0.993150651) (0.3715) (1.0),
   MeshVertex.mk (0.0) (0.0) (-1.0) (-0.116841137) (0.5) (-0.993150651) (0.2493) (0.0),
   MeshVertex.mk (-0.17) (0.0) (-0.98) (-0.116841137) (0.5) (-0.993150651) (0.277) (0.0),
   MeshVertex.mk (0.0) (1.0) (-0.5) (-0.116841137) (0.5) (-0.993150651) (0.3715) (1.0),
   MeshVertex.mk (-0.085) (1.0) (-0.49) (-0.116841137) (0.5) (-0.993150651) (0.385) (1.0),
   MeshVertex.mk (-0.17) (0.0) (-0.98) (-0.116841137) (0.5) (-0.993150651) (0.277) (0.0),
   MeshVertex.mk (-0.34) (0.0) (-0.94) (-0.229039446) (0.5) (-0.973417103) (0.3047) (0.0),
   MeshVertex.mk (-0.085) (1.0) (-0.49) (-0.229039446) (0.5) (-0.973417103) (0.385) (1.0),
   MeshVertex.mk (-0.17) (1.0) (-0.47) (-0.229039446) (0.5) (-0.973417103) (0.3985) (1.0),
   MeshVertex.mk (-0.34) (0.0) (-0.94) (-0.229039446) (0.5) (-0.973417103) (0.3047) (0.0),
   MeshVertex.mk (-0.5) (0.0) (-0.87) (-0.229039446) (0.5) (-0.973417103) (0.3324) (0.0),
   MeshVertex.mk (-0.17) (1.0) (-0.47) (-0.229039446) (0.5) (-0.973417103) (0.3985) (1.0),
   MeshVertex.mk (-0.25) (1.0) (-0.435) (-0.581238329) (0.5) (-0.581238329) (0.412) (1.0),
   MeshVertex.mk (-0.5) (0.0) (-0.87) (-0.581238329) (0.5) (-0.581238329) (0.3324) (0.0),
   MeshVertex.mk (-0.64) (0.0) (-0.77) (-0.581238329) (0.5) (-0.581238329) (0.3601) (0.0),
   MeshVertex.mk (-0.25) (1.0) (-0.435) (-0.581238329) (0.5) (-0.581238329) (0.412) (1.0),
   MeshVertex.mk (-0.32) (1.0) (-0.385) (-0.581238329) (0.5) (-0.581238329) (0.4255) (1.0),
   MeshVertex.mk (-0.64) (0.0) (-0.77) (-0.581238329) (0.5) (-0.581238329) (0.3601) (0.0),
   MeshVertex.mk (-0.77) (0.0) (-0.64) (-0.707106769) (0.5) (-0.707106769) (0.3878) (0.0),
   MeshVertex.mk (-0.32) (1.0) (-0.385) (-0.707106769) (0.5) (-0.707106769) (0.4255) (1.0),
   MeshVertex.mk (-0.385) (1.0) (-0.32) (-0.707106769) (0.5) (-0.707106769) (0.439) (1.0),
   MeshVertex.mk (-0.77) (0.0) (-0.64) (-0.707106769) (0.5) (-0.707106769) (0.3878) (0.0),
   MeshVertex.mk (-0.87) (0.0) (-0.5) (-0.707106769) (0.5) (-0.707106769) (0.4155) (0.0),
   MeshVertex.mk (-0.385) (1.0) (-0.32) (-0.707106769) (0.5) (-0.707106769) (0.439) (1.0),
   MeshVertex.mk (-0.435) (1.0) (-0.25) (-0.916157305) (0.5) (-0.400818795) (0.4525) (1.0),
   MeshVertex.mk (-0.87) (0.0) (-0.5) (-0.916157305) (0.5) (-0.400818795) (0.4155) (0.0),
   MeshVertex.mk (-0.94) (0.0) (-0.34) (-0.916157305) (0.5) (-0.400818795) (0.4432) (0.0),
   MeshVertex.mk (-0.435) (1.0) (-0.25) (-0.916157305) (0.5) (-0.400818795) (0.4525) (1.0),
   MeshVertex.mk (-0.47) (1.0) (-0.17) (-0.916157305) (0.5) (-0.400818795) (0.466) (1.0),
   MeshVertex.mk (-0.94) (0.0) (-0.34) (-0.916157305) (0.5) (-0.400818795) (0.4432) (0.0),
   MeshVertex.mk (-0.98) (0.0) (-0.17) (-0.973417103) (0.5) (-0.229039446) (0.4709) (0.0),
   MeshVertex.mk (-0.47) (1.0) (-0.17) (-0.973417103) (0.5) (-0.229039446) (0.466) (1.0),
   MeshVertex.mk (-0.49) (1.0) (-0.085) (-0.973417103) (0.5) (-0.229039446) (0.4795) (1.0),
   MeshVertex.mk (-0.98) (0.0) (-0.17) (-0.973417103) (0.5) (-0.229039446) (0.4709) (0.0),
   MeshVertex.mk (-1.0) (0.0) (0.0) (-0.973417103) (0.5) (-0.229039446) (0.4986) (0.0),
   MeshVertex.mk (-0.49) (1.0) (-0.085) (-0.973417103) (0.5) (-0.229039446) (0.4795) (1.0),
   MeshVertex.mk (-0.5) (1.0) (0.0) (-0.993150651) (0.5) (-0.116841137) (0.493) (1.0),
   MeshVertex.mk (-1.0) (0.0) (0.0) (-0.993150651) (0.5) (-0.116841137) (0.4986) (0.0),
   MeshVertex.mk (-0.98) (0.0) (0.17) (-0.993150651) (0.5) (0.116841137) (0.5263) (0.0),
   MeshVertex.mk (-0.5) (1.0) (0.0) (-0.993150651) (0.5) (0.116841137) (0.493) (1.0),
   MeshVertex.mk (-0.49) (1.0) (0.085) (-0.993150651) (0.5) (0.116841137) (0.5065) (1.0),
   MeshVertex.mk (-0.98) (0.0) (0.17) (-0.993150651) (0.5) (0.116841137) (0.5263) (0.0),
   MeshVertex.mk (-0.94) (0.0) (0.34) (-0.973417103) (0.5) (0.229039446) (0.554) (0.0),
   MeshVertex.mk (-0.49) (1.0) (0.085) (-0.973417103) (0.5) (0.229039446) (0.5065) (1.0),
   MeshVertex.mk (-0.47) (1.0) (0.17) (-0.973417103) (0.5) (0.229039446) (0.52) (1.0),
   MeshVertex.mk (-0.94) (0.0) (0.34) (-0.973417103) (0.5) (0.229039446) (0.554) (0.0),
   MeshVertex.mk (-0.87) (0.0) (0.5) (-0.973417103) (0.5) (0.229039446) (0.5817) (0.0),
   MeshVertex.mk (-0.47) (1.0) (0.17) (-0.973417103) (0.5) (0.229039446) (0.52) (1.0),
   MeshVertex.mk (-0.435) (1.0) (0.25) (-0.813733339) (0.5) (0.581238329) (0.5335) (1.0),
   MeshVertex.mk (-0.87) (0.0) (0.5) (-0.813733339) (0.5) (0.581238329) (0.5817) (0.0),
   MeshVertex.mk (-0.77) (0.0) (0.64) (-0.813733339) (0.5) (0.581238329) (0.6094) (0.0),
   MeshVertex.mk (-0.435) (1.0) (0.25) (-0.813733339) (0.5) (0.581238329) (0.5335) (1.0),
   MeshVertex.mk (-0.385) (1.0) (0.32) (-0.813733339) (0.5) (0.581238329) (0.547) (1.0),
   MeshVertex.mk (-0.77) (0.0) (0.64) (-0.813733339) (0.5) (0.581238329) (0.6094) (0.0),
   MeshVertex.mk (-0.64) (0.0) (0.77) (-0.707106769) (0.5) (0.707106769) (0.6371) (0.0),
   MeshVertex.mk (-0.385) (1.0) (0.32) (-0.707106769) (0.5) (0.707106769) (0.547) (1.0),
   MeshVertex.mk (-0.32) (1.0) (0.385) (-0.707106769) (0.5) (0.707106769) (0.5605) (1.0),
   MeshVertex.mk (-0.64) (0.0) (0.77) (-0.707106769) (0.5) (0.707106769) (0.6371) (0.0),
   MeshVertex.mk (-0.5) (0.0) (0.87) (-0.707106769) (0.5) (0.707106769) (0.6648) (0.0),
   MeshVertex.mk (-0.32) (1.0) (0.385) (-0.707106769) (0.5) (0.707106769) (0.5605) (1.0),
   MeshVertex.mk (-0.25) (1.0) (0.435) (-0.400818795) (0.5) (0.916157305) (0.574) (1.0),
   MeshVertex.mk (-0.5) (0.0) (0.87) (-0.400818795) (0.5) (0.916157305) (0.6648) (0.0),
   MeshVertex.mk (-0.34) (0.0) (0.94) (-0.400818795) (0.5) (0.916157305) (0.6925) (0.0),
   MeshVertex.mk (-0.25) (1.0) (0.435) (-0.400818795) (0.5) (0.916157305) (0.574) (1.0),
   MeshVertex.mk (-0.17) (1.0) (0.47) (-0.400818795) (0.5) (0.916157305) (0.5875) (1.0),
   MeshVertex.mk (-0.34) (0.0) (0.94) (-0.400818795) (0.5) (0.916157305) (0.6925) (0.0),
   MeshVertex.mk (-0.17) (0.0) (0.98) (-0.229039446) (0.5) (0.973417103) (0.7202) (0.0),
   MeshVertex.mk (-0.17) (1.0) (0.47) (-0.229039446) (0.5) (0.973417103) (0.5875) (1.0),
   MeshVertex.mk (-0.085) (1.0) (0.49) (-0.229039446) (0.5) (0.973417103) (0.601) (1.0),
   MeshVertex.mk (-0.17) (0.0) (0.98) (-0.229039446) (0.5) (0.973417103) (0.7202) (0.0),
   MeshVertex.mk (0.0) (0.0) (1.0) (-0.229039446) (0.5) (0.973417103) (0.7479) (0.0),
   MeshVertex.mk (-0.085) (1.0) (0.49) (-0.229039446) (0.5) (0.973417103) (0.601) (1.0),
   MeshVertex.mk (0.0) (1.0) (0.5) (-0.116841137) (0.5) (0.993150651) (0.6145) (1.0),
   MeshVertex.mk (0.0) (0.0) (1.0) (-0.116841137) (0.5) (0.993150651) (0.7479) (0.0),
   MeshVertex.mk (0.17) (0.0) (0.98) (0.116841137) (0.5) (0.993150651) (0.7756) (0.0),
   MeshVertex.mk (0.0) (1.0) (0.5) (0.116841137) (0.5) (0.993150651) (0.6145) (1.0),
   MeshVertex.mk (0.085) (1.0) (0.49) (0.116841137) (0.5) (0.993150651) (0.628) (1.0),
   MeshVertex.mk (0.17) (0.0) (0.98) (0.116841137) (0.5) (0.993150651) (0.7756) (0.0),
   MeshVertex.mk (0.34) (0.0) (0.94) (0.229039446) (0.5) (0.973417103) (0.8033) (0.0),
   MeshVertex.mk (0.085) (1.0) (0.49) (0.229039446) (0.5) (0.973417103) (0.628) (1.0),
   MeshVertex.mk (0.17) (1.0) (0.47) (0.229039446) (0.5) (0.973417103) (0.6415) (1.0),
   MeshVertex.mk (0.34) (0.0) (0.94) (0.229039446) (0.5) (0.973417103) (0.8033) (0.0),
   MeshVertex.mk (0.5) (0.0) (0.87) (0.229039446) (0.5) (0.973417103) (0.831) (0.0),
   MeshVertex.mk (0.17) (1.0) (0.47) (0.229039446) (0.5) (0.973417103) (0.6415) (1.0),
   MeshVertex.mk (0.25) (1.0) (0.435) (0.581238329) (0.5) (0.813733339) (0.655) (1.0),
   MeshVertex.mk (0.5) (0.0) (0.87) (0.581238329) (0.5) (0.813733339) (0.831) (0.0),
   MeshVertex.mk (0.64) (0.0) (0.77) (0.581238329) (0.5) (0.813733339) (0.8587) (0.0),
   MeshVertex.mk (0.25) (1.0) (0.435) (0.581238329) (0.5) (0.813733339) (0.655) (1.0),
   MeshVertex.mk (0.32) (1.0) (0.385) (0.581238329) (0.5) (0.813733339) (0.6685) (1.0),
   MeshVertex.mk (0.64) (0.0) (0.77) (0.581238329) (0.5) (0.813733339) (0.8587) (0.0),
   MeshVertex.mk (0.77) (0.0) (0.64) (0.707106769) (0.5) (0.707106769) (0.8864) (0.0),
   MeshVertex.mk (0.32) (1.0) (0.385) (0.707106769) (0.5) (0.707106769) (0.6685) (1.0),
   MeshVertex.mk (0.385) (1.0) (0.32) (0.707106769) (0.5) (0.707106769) (0.682) (1.0),
   MeshVertex.mk (0.77) (0.0) (0.64) (0.707106769) (0.5) (0.707106769) (0.8864) (0.0),
   MeshVertex.mk (0.87) (0.0) (0.5) (0.707106769) (0.5) (0.707106769) (0.9141) (0.0),
   MeshVertex.mk (0.385) (1.0) (0.32) (0.707106769) (0.5) (0.707106769) (0.682) (1.0),
   MeshVertex.mk (0.435) (1.0) (0.25) (0.916157305) (0.5) (0.400818795) (0.6955) (1.0),
   MeshVertex.mk (0.87) (0.0) (0.5) (0.916157305) (0.5) (0.400818795) (0.9141) (0.0),
   MeshVertex.mk (0.94) (0.0) (0.34) (0.916157305) (0.5) (0.400818795) (0.9418) (0.0),
   MeshVertex.mk (0.435) (1.0) (0.25) (0.916157305) (0.5) (0.400818795) (0.6955) (1.0),
   MeshVertex.mk (0.47) (1.0) (0.17) (0.916157305) (0.5) (0.400818795) (0.709) (1.0),
   MeshVertex.mk (0.94) (0.0) (0.34) (0.916157305) (0.5) (0.400818795) (0.9418) (1.0),
   MeshVertex.mk (0.98) (0.0) (0.17) (0.973417103) (0.5) (0.229039446) (0.9695) (0.0),
   MeshVertex.mk (0.47) (1.0) (0.17) (0.973417103) (0.5) (0.229039446) (0.709) (0.0),
   MeshVertex.mk (0.49) (1.0) (0.085) (0.973417103) (0.5) (0.229039446) (0.7225) (1.0),
   MeshVertex.mk (0.98) (0.0) (0.17) (0.973417103) (0.5) (0.229039446) (0.9695) (0.0),
   MeshVertex.mk (1.0) (0.0) (0.0) (0.973417103) (0.5) (0.229039446) (1.0) (0.0),
   MeshVertex.mk (0.49) (1.0) (0.085) (0.973417103) (0.5) (0.229039446) (0.7225) (1.0),
   MeshVertex.mk (0.5) (1.0) (0.0) (0.993150651) (0.5) (0.116841137) (0.75) (1.0),
   MeshVertex.mk (1.0) (0.0) (0.0) (0.993150651) (0.5) (0.116841137) (1.0) (0.0)]

/-- The whole `verts` table: bottom cap, then top cap, then sides. -/
def taperedCylinderVerts : List MeshVertex :=
  taperedCylinderBottomVerts ++ taperedCylinderTopVerts ++ taperedCylinderSideVerts

/-- `m_TaperedCylinderMesh.nVertices = sizeof(verts) / (sizeof(verts[0]) * 8)`. -/
def taperedCylinderNVertices : ℕ := (flattenQ taperedCylinderVerts).length / 8

/-- The buffer indices holding the bottom-cap vertices. -/
def taperedCylinderBottomIndices : List ℕ :=
  List.range taperedCylinderBottomVerts.length

/-- The buffer indices holding the top-cap vertices. -/
def taperedCylinderTopIndices : List ℕ :=
  (List.range taperedCylinderTopVerts.length).map
    (fun k => taperedCylinderBottomVerts.length + k)

/-- The buffer indices holding the side vertices. -/
def taperedCylinderSideIndices : List ℕ :=
  (List.range taperedCylinderSideVerts.length).map
    (fun k => taperedCylinderBottomVerts.length + taperedCylinderTopVerts.length + k)

/-- The vertex indices a call `glDrawArrays(mode, first, count)` reads:
`first, first+1, ..., first+count-1`. -/
def drawArraysRange (first count : ℕ) : List ℕ :=
  (List.range count).map (fun k => first + k)

/-- `ShapeMeshes::DrawTaperedCylinderMesh`: the buffer indices read, in
order, by the enabled hardcoded draw calls - `glDrawArrays(0, 36)` for
the bottom, `glDrawArrays(36, 72)` for the top, `glDrawArrays(72, 146)`
for the sides. -/
def DrawTaperedCylinderMesh (bDrawTop bDrawBottom bDrawSides : Bool) : List ℕ :=
  (if bDrawBottom then drawArraysRange 0 36 else []) ++
  (if bDrawTop then drawArraysRange 36 72 else []) ++
  (if bDrawSides then drawArraysRange 72 146 else [])

/-! ## Theorems -/

/-- C5: in the box mesh created by `ShapeMeshes::LoadBoxMesh`, every one
of the 24 vertices carries the axis-aligned unit normal of the face it
belongs to (all four vertices of a face share that normal), and that
normal points outward from the box centre: its dot product with the face
centroid is positive. -/
theorem box_mesh_normals_axis_aligned_outward :
    boxVerts.length = 24 ∧ boxNVertices = 24 ∧
    ∀ f < 6, ∀ v ∈ boxFaceVerts f,
      axisAlignedUnit (vertexNormal v) ∧
      (∀ w ∈ boxFaceVerts f, vertexNormal w = vertexNormal v) ∧
      0 < qdot (vertexNormal v) (centroidOf (boxFaceVerts f)) := by
  refine ⟨rfl, rfl, ?_⟩
  intro f hf
  interval_cases f <;>
    simp [boxFaceVerts, boxVerts, axisAlignedUnit, vertexNormal, qdot,
      centroidOf] <;> norm_num

/-- C2 counterexample: the top-cap draw call `glDrawArrays(36, 72)` does
not read exactly the 36 top-cap vertices loaded at indices 36..71; it
also reads index 107, which holds a side vertex. -/
theorem taperedCylinder_top_draw_reads_side_vertices :
    DrawTaperedCylinderMesh true false false ≠ taperedCylinderTopIndices ∧
    107 ∈ DrawTaperedCylinderMesh true false false ∧
    107 ∉ taperedCylinderTopIndices ∧
    107 ∈ taperedCylinderSideIndices := by
  decide

/-- C2 (amended): the tapered cylinder buffer holds 218 vertices
(36 bottom-cap, 36 top-cap, 146 side); every hardcoded draw-call range of
`DrawTaperedCylinderMesh` stays within the loaded buffer; the bottom and
side calls read exactly the vertices loaded for their parts, while the
top call `glDrawArrays(36, 72)` reads the 36 top-cap vertices followed by
the first 36 side vertices. -/
theorem taperedCylinder_draw_ranges_in_bounds :
    taperedCylinderNVertices = 218 ∧
    taperedCylinderBottomVerts.length = 36 ∧
    taperedCylinderTopVerts.length = 36 ∧
    taperedCylinderSideVerts.length = 146 ∧
    ((DrawTaperedCylinderMesh true true true).all
      fun i => i < taperedCylinderNVertices) = true ∧
    DrawTaperedCylinderMesh false true false = taperedCylinderBottomIndices ∧
    DrawTaperedCylinderMesh false false true = taperedCylinderSideIndices ∧
    DrawTaperedCylinderMesh true false false =
      taperedCylinderTopIndices ++ taperedCylinderSideIndices.take 36 := by
  decide

/-- Witness for C5 at face 0 and its first vertex. -/
theorem box_mesh_normals_axis_aligned_outward_witness :
    axisAlignedUnit (vertexNormal (MeshVertex.mk 0.5 0.5 (-0.5) 0 0 (-1) 0 1)) :=
  (box_mesh_normals_axis_aligned_outward.2.2 0 (by norm_num)
    (MeshVertex.mk 0.5 0.5 (-0.5) 0 0 (-1) 0 1)
    (by simp [boxFaceVerts, boxVerts])).1

/-- Helper: the projection `PrepareSceneView` builds from a given
post-keyboard state is the `glm::ortho` one exactly when the flag is
true. -/
theorem prepareSceneView_ortho_branch (st2 : ViewState) :
    ((if st2.bOrthographicProjection = false then
        Projection.perspective (radians st2.camera.Zoom)
          (WINDOW_WIDTH / WINDOW_HEIGHT) 0.1 100
      else
        Projection.ortho
          (-WINDOW_WIDTH / (2 * st2.camera.Zoom)) (WINDOW_WIDTH / (2 * st2.camera.Zoom))
          (-WINDOW_HEIGHT / (2 * st2.camera.Zoom)) (WINDOW_HEIGHT / (2 * st2.camera.Zoom))
          0.1 100).isOrtho = true ↔ st2.bOrthographicProjection = true) := by
  cases h : st2.bOrthographicProjection <;> simp [h, Projection.isOrtho]

/-- C6: the camera projection mode is a two-state machine - the flag
starts false, processing the keyboard sets it to true exactly when O, I
or U is pressed and P is not (P's check runs last and wins), it is
changed by nothing else, and each frame `PrepareSceneView` builds the
projection with `glm::ortho` exactly when the (updated) flag is true and
with `glm::perspective` exactly when it is false. -/
theorem projection_mode_two_state_machine :
    initialOrthographicProjection = false ∧
    (∀ (keys : KeyState) (deltaTime : ℝ) (st : ViewState),
      (ProcessKeyboardEvents keys deltaTime st).bOrthographicProjection =
        (if keys.keyP then false
         else if keys.keyO || keys.keyI || keys.keyU then true
         else st.bOrthographicProjection)) ∧
    (∀ (keys : KeyState) (deltaTime : ℝ) (st : ViewState),
      ((PrepareSceneView keys deltaTime st).2.isOrtho = true ↔
        (PrepareSceneView keys deltaTime st).1.bOrthographicProjection = true)) := by
  refine ⟨rfl, ?_, ?_⟩
  · intro keys deltaTime st
    simp only [ProcessKeyboardEvents,
      apply_ite ViewState.bOrthographicProjection, ite_self]
    cases keys.keyO <;> cases keys.keyI <;> cases keys.keyU <;>
      cases keys.keyP <;> simp
  · intro keys deltaTime st
    exact prepareSceneView_ortho_branch (ProcessKeyboardEvents keys deltaTime st)

/-- Helper: the slot-scan loop returns the offset of the first match
shifted by the running index, and `-1` when there is none. -/
theorem findTextureSlotGo_eq_findIdx (l : List TEXTURE_INFO) (tag : String) :
    ∀ n : ℕ, findTextureSlotGo l tag n =
      match l.findIdx? (fun e => e.tag = tag) with
      | some i => ((n + i : ℕ) : ℤ)
      | none => -1 := by
  induction l with
  | nil => intro n; rfl
  | cons e rest ih =>
    intro n
    by_cases h : e.tag = tag
    · simp [findTextureSlotGo, h, List.findIdx?_cons]
    · cases hfi : List.findIdx? (fun x => decide (x.tag = tag)) rest with
      | none => simp [findTextureSlotGo, h, List.findIdx?_cons, ih, hfi]
      | some i =>
        simp [findTextureSlotGo, h, List.findIdx?_cons, ih, hfi]
        ring

/-- Helper: the ID-scan loop returns the ID of the first match, `-1`
when there is none. -/
theorem findTextureIDGo_eq_find (l : List TEXTURE_INFO) (tag : String) :
    findTextureIDGo l tag =
      match l.find? (fun e => e.tag = tag) with
      | some e => e.ID
      | none => -1 := by
  induction l with
  | nil => rfl
  | cons e rest ih =>
    by_cases h : e.tag = tag
    · simp [findTextureIDGo, h, List.find?_cons]
    · simp [findTextureIDGo, h, List.find?_cons, ih]

/-- C7: for every tag and registry state, `FindTextureSlot` returns the
index of the first loaded texture (scanning from index 0) whose tag
equals the argument, and `-1` when no loaded texture has that tag;
`FindTextureID` behaves identically but returns the stored texture ID. -/
theorem findTexture_lookups_match_spec (s : SceneRegistry) (tag : String) :
    FindTextureSlot s tag = findTextureSlotSpec s tag ∧
    FindTextureID s tag = findTextureIDSpec s tag := by
  constructor
  · rw [FindTextureSlot, findTextureSlotSpec, findTextureSlotGo_eq_findIdx]
    cases (loadedPrefix s).findIdx? (fun e => e.tag = tag) <;> simp
  · rw [FindTextureID, findTextureIDSpec, findTextureIDGo_eq_find]

/-- Helper: when no entry's tag matches, the scan loop of `FindMaterial`
leaves the caller's material untouched. -/
theorem findMaterialGo_no_match (tag : String) :
    ∀ (l : List OBJECT_MATERIAL) (material : OBJECT_MATERIAL),
      (∀ m ∈ l, m.tag ≠ tag) → findMaterialGo l tag material = material := by
  intro l
  induction l with
  | nil => intro material _; rfl
  | cons m rest ih =>
    intro material h
    rw [findMaterialGo, if_neg (h m (List.mem_cons_self m rest))]
    exact ih material fun w hw => h w (List.mem_cons_of_mem m hw)

/-- C8: `FindMaterial` returns false exactly when the materials list is
empty; for a non-empty list it returns true even when no material has
the requested tag, and in that not-found case the caller's material
parameter comes back unmodified. -/
theorem findMaterial_true_even_when_not_found (materials : List OBJECT_MATERIAL)
    (tag : String) (material : OBJECT_MATERIAL) :
    ((FindMaterial materials tag material).1 = false ↔ materials = []) ∧
    (materials ≠ [] → (FindMaterial materials tag material).1 = true) ∧
    ((∀ m ∈ materials, m.tag ≠ tag) →
      (FindMaterial materials tag material).2 = material) := by
  refine ⟨?_, ?_, ?_⟩
  · cases materials <;> simp [FindMaterial]
  · intro h
    cases materials with
    | nil => exact absurd rfl h
    | cons m rest => simp [FindMaterial]
  · intro h
    cases materials with
    | nil => rfl
    | cons m rest =>
      simp only [FindMaterial, List.length_cons, Nat.succ_ne_zero, if_false]
      exact findMaterialGo_no_match tag (m :: rest) material h

/-- Witness for C8: a singleton materials list whose tag differs from the
request leaves the caller's material unchanged. -/
theorem findMaterial_true_even_when_not_found_witness :
    (FindMaterial [OBJECT_MATERIAL.mk (1, 1, 1) (1, 1, 1) 1 "leather"] "nope"
        (OBJECT_MATERIAL.mk (0, 0, 0) (0, 0, 0) 0 "out")).1 = true ∧
    (FindMaterial [OBJECT_MATERIAL.mk (1, 1, 1) (1, 1, 1) 1 "leather"] "nope"
        (OBJECT_MATERIAL.mk (0, 0, 0) (0, 0, 0) 0 "out")).2 =
      OBJECT_MATERIAL.mk (0, 0, 0) (0, 0, 0) 0 "out" :=
  ⟨(findMaterial_true_even_when_not_found _ "nope" _).2.1 (by simp),
   (findMaterial_true_even_when_not_found _ "nope" _).2.2 (by simp)⟩

/-- C3: when texture loading fails - the image cannot be decoded, or its
channel count is neither 3 nor 4 - `CreateGLTexture` returns false,
prints a message, and leaves the registry (`m_loadedTextures` and every
`m_textureIDs` entry) unchanged. -/
theorem createGLTexture_failure_leaves_registry (decoded : Option ImageData)
    (textureID : ℤ) (filename tag : String) (s : SceneRegistry)
    (h : decoded = none ∨
      ∃ img, decoded = some img ∧ img.colorChannels ≠ 3 ∧ img.colorChannels ≠ 4) :
    (CreateGLTexture decoded textureID filename tag s).1 = false ∧
    (CreateGLTexture decoded textureID filename tag s).2.1 = s ∧
    (CreateGLTexture decoded textureID filename tag s).2.2 ≠ [] := by
  rcases h with rfl | ⟨img, rfl, h3, h4⟩
  · exact ⟨rfl, rfl, by simp [CreateGLTexture]⟩
  · simp [CreateGLTexture, h3, h4]

/-- Witness for C3: an undecodable file fails without touching the
freshly constructed registry. -/
theorem createGLTexture_failure_leaves_registry_witness :
    (CreateGLTexture none 0 "textures/missing.png" "missing" initialRegistry).1
      = false ∧
    (CreateGLTexture none 0 "textures/missing.png" "missing" initialRegistry).2.1
      = initialRegistry :=
  ⟨(createGLTexture_failure_leaves_registry none 0 "textures/missing.png"
      "missing" initialRegistry (Or.inl rfl)).1,
   (createGLTexture_failure_leaves_registry none 0 "textures/missing.png"
      "missing" initialRegistry (Or.inl rfl)).2.1⟩

/-- Helper: refreshing the camera direction vectors does not touch the
pitch. -/
theorem updateCameraVectors_pitch (c : Camera) :
    (updateCameraVectors c).Pitch = c.Pitch := rfl

/-- Helper: a single constrained mouse movement lands the pitch in
[-89, 89] whatever the incoming camera state. -/
theorem processMouseMovement_pitch_mem (c : Camera) (x y : ℝ) :
    (ProcessMouseMovement c x y true).Pitch ∈ Set.Icc (-89 : ℝ) 89 := by
  rw [Set.mem_Icc]
  simp only [ProcessMouseMovement, updateCameraVectors_pitch,
    apply_ite Camera.Pitch]
  norm_num
  split_ifs <;> constructor <;> linarith

/-- C9: after any nonempty sequence of mouse movements processed with
`constrainPitch` true, the camera pitch lies in [-89, 89] - so the
clamping invariant is established by one call and preserved by every
further call. -/
theorem camera_pitch_clamped (c : Camera) (moves : List (ℝ × ℝ))
    (h : moves ≠ []) :
    (processMouseMoves c moves).Pitch ∈ Set.Icc (-89 : ℝ) 89 := by
  induction moves generalizing c with
  | nil => exact absurd rfl h
  | cons m rest ih =>
    cases rest with
    | nil =>
      simpa [processMouseMoves] using processMouseMovement_pitch_mem c m.1 m.2
    | cons m2 rest2 =>
      have step := ih (ProcessMouseMovement c m.1 m.2 true) (by simp)
      simpa [processMouseMoves] using step

/-- Witness for C9: one movement with a large upward offset from the
default camera is clamped into range. -/
theorem camera_pitch_clamped_witness :
    (processMouseMoves (cameraNew ⟨0, 0, 0⟩ ⟨0, 1, 0⟩ YAW PITCH)
      [((0 : ℝ), 1000)]).Pitch ∈ Set.Icc (-89 : ℝ) 89 :=
  camera_pitch_clamped (cameraNew ⟨0, 0, 0⟩ ⟨0, 1, 0⟩ YAW PITCH)
    [((0 : ℝ), 1000)] (by simp)

/-- Helper: one `CreateGLTexture` call bumps `m_loadedTextures` exactly
when it succeeds. -/
theorem createGLTexture_loadedTextures (decoded : Option ImageData)
    (textureID : ℤ) (filename tag : String) (s : SceneRegistry) :
    (CreateGLTexture decoded textureID filename tag s).2.1.loadedTextures =
      (if (CreateGLTexture decoded textureID filename tag s).1
       then s.loadedTextures + 1 else s.loadedTextures) := by
  cases decoded with
  | none => rfl
  | some img =>
    by_cases h3 : img.colorChannels = 3
    · simp [CreateGLTexture, h3, registerTexture]
    · by_cases h4 : img.colorChannels = 4 <;>
        simp [CreateGLTexture, h3, h4, registerTexture]

/-- Helper: a `CreateGLTexture` call on a file succeeds exactly when
`loadSucceeds` holds for it under the decode environment. -/
theorem createGLTexture_succeeds_iff (decode : String → Option ImageData)
    (textureID : ℤ) (filename tag : String) (s : SceneRegistry) :
    (CreateGLTexture (decode filename) textureID filename tag s).1 =
      loadSucceeds decode filename := by
  rw [loadSucceeds]
  cases decode filename with
  | none => rfl
  | some img =>
    by_cases h3 : img.colorChannels = 3
    · simp [CreateGLTexture, h3]
    · by_cases h4 : img.colorChannels = 4 <;> simp [CreateGLTexture, h3, h4]

/-- Helper: folding `CreateGLTexture` over a list of (filename, tag)
pairs adds the number of successful loads to `m_loadedTextures`. -/
theorem foldl_createGLTexture_count (decode : String → Option ImageData)
    (idGen : String → ℤ) :
    ∀ (files : List (String × String)) (s : SceneRegistry),
      ((files.foldl
        (fun acc p =>
          (CreateGLTexture (decode p.1) (idGen p.1) p.1 p.2 acc).2.1)
        s).loadedTextures) =
        s.loadedTextures + (files.filter fun p => loadSucceeds decode p.1).length := by
  intro files
  induction files with
  | nil => intro s; simp
  | cons p rest ih =>
    intro s
    rw [List.foldl_cons, ih, List.filter_cons]
    have hcount := createGLTexture_loadedTextures (decode p.1) (idGen p.1) p.1 p.2 s
    rw [createGLTexture_succeeds_iff decode] at hcount
    cases hfi : loadSucceeds decode p.1 <;> simp [hfi] at hcount <;>
      simp [hcount]
    omega

/-- C10: `CreateGLTexture` writes at index `m_loadedTextures` of the
16-entry `m_textureIDs` array with no bounds check, so under the
precondition that fewer than 16 textures are loaded the write stays in
bounds and a success bumps the counter by one; `LoadSceneTextures`
performs exactly 16 `CreateGLTexture` calls, the counter afterwards
equals the number of successful loads, and when all 16 succeed the
registry is filled exactly to capacity - the write index of one further
load equals 16, out of bounds for the array. -/
theorem texture_registry_filled_to_capacity :
    (∀ (decoded : Option ImageData) (textureID : ℤ) (filename tag : String)
        (s : SceneRegistry),
      s.loadedTextures < textureSlotCapacity →
      textureWriteIndex s < textureSlotCapacity ∧
      ((CreateGLTexture decoded textureID filename tag s).1 = true →
        (CreateGLTexture decoded textureID filename tag s).2.1.loadedTextures =
          s.loadedTextures + 1)) ∧
    sceneTextureFiles.length = 16 ∧
    (∀ (decode : String → Option ImageData) (idGen : String → ℤ),
      (LoadSceneTextures decode idGen initialRegistry).loadedTextures =
        (sceneTextureFiles.filter fun p => loadSucceeds decode p.1).length) ∧
    (∀ (decode : String → Option ImageData) (idGen : String → ℤ),
      (∀ p ∈ sceneTextureFiles, loadSucceeds decode p.1 = true) →
      (LoadSceneTextures decode idGen initialRegistry).loadedTextures =
        textureSlotCapacity ∧
      ¬ textureWriteIndex (LoadSceneTextures decode idGen initialRegistry) <
          textureSlotCapacity) := by
  refine ⟨?_, rfl, ?_, ?_⟩
  · intro decoded textureID filename tag s hs
    refine ⟨hs, fun hsucc => ?_⟩
    rw [createGLTexture_loadedTextures, hsucc, if_pos rfl]
  · intro decode idGen
    rw [LoadSceneTextures, foldl_createGLTexture_count]
    simp [initialRegistry]
  · intro decode idGen hall
    have hfull :
        (LoadSceneTextures decode idGen initialRegistry).loadedTextures = 16 := by
      rw [LoadSceneTextures, foldl_createGLTexture_count]
      rw [List.filter_eq_self.mpr hall]
      rfl
    exact ⟨hfull, by rw [textureWriteIndex, hfull]; decide⟩

/-- Witness for C10: under a decode environment where every image parses
with 3 channels, the 16 loads fill the registry to capacity, and the
single-call bound holds at the fresh registry. -/
theorem texture_registry_filled_to_capacity_witness :
    (LoadSceneTextures (fun _ => some (ImageData.mk 4 4 3)) (fun _ => 7)
        initialRegistry).loadedTextures = textureSlotCapacity ∧
    textureWriteIndex initialRegistry < textureSlotCapacity :=
  ⟨(texture_registry_filled_to_capacity.2.2.2
      (fun _ => some (ImageData.mk 4 4 3)) (fun _ => 7)
      (fun p _ => rfl)).1,
   (texture_registry_filled_to_capacity.1 none 0 "textures/floor.png" "floor"
      initialRegistry (by decide)).1⟩

/-- Helper: the flat buffer of a real vertex list holds 8 floats per
vertex. -/
theorem flattenR_length : ∀ l : List RVertex, (flattenR l).length = 8 * l.length := by
  intro l
  induction l with
  | nil => rfl
  | cons v rest ih => simp [flattenR, ih]; omega

/-- Helper: a flat-map whose pieces all have length `k` has length
`k` times the outer length. -/
theorem length_flatMap_const {α β : Type} (l : List α) (f : α → List β) (k : ℕ)
    (h : ∀ a ∈ l, (f a).length = k) : (l.flatMap f).length = l.length * k := by
  induction l with
  | nil => simp
  | cons a rest ih =>
    rw [List.flatMap_cons, List.length_append, h a (List.mem_cons_self a rest),
      ih fun b hb => h b (List.mem_cons_of_mem a hb), List.length_cons]
    ring

/-- Helper: the nested generation loops produce `a * b` vertices. -/
theorem length_grid {α : Type} (a b : ℕ) (f : ℕ → ℕ → α) :
    ((List.range a).flatMap fun i => (List.range b).map fun j => f i j).length
      = a * b := by
  rw [length_flatMap_const _ _ b (fun i _ => by simp), List.length_range]

/-- Helper: the Pythagorean identity for the sphere normal components. -/
theorem unit_normal_trig (θ φ : ℝ) :
    (Real.sin θ * Real.cos φ) ^ 2 + Real.cos θ ^ 2 +
      (Real.sin θ * Real.sin φ) ^ 2 = 1 := by
  have h1 := Real.sin_sq_add_cos_sq θ
  have h2 := Real.sin_sq_add_cos_sq φ
  nlinarith [h1, h2]

/-- C1: the sphere mesh generated with `latitudeSegments = 8`,
`longitudeSegments = 8`, `radius = 1` stores
`nVertices = (8+1)*(8+1) = 81`, and every generated per-vertex normal
`(sinTheta*cosPhi, cosTheta, sinTheta*sinPhi)` has unit length exactly
(so in particular within every positive epsilon). -/
theorem sphere_vertex_count_and_unit_normals :
    sphereNVertices 8 8 1 = 81 ∧
    ∀ v ∈ sphereVertices 8 8 1, v.nx ^ 2 + v.ny ^ 2 + v.nz ^ 2 = 1 := by
  constructor
  · rw [sphereNVertices, flattenR_length, sphereVertices, length_grid]
  · intro v hv
    rw [sphereVertices] at hv
    obtain ⟨lat, hlat, hv2⟩ := List.mem_flatMap.mp hv
    obtain ⟨lon, hlon, rfl⟩ := List.mem_map.mp hv2
    simp only [sphereVertexAt]
    exact unit_normal_trig _ _

/-- Witness for C1: the first generated vertex is in the vertex list and
its normal has unit length. -/
theorem sphere_vertex_count_and_unit_normals_witness :
    (sphereVertexAt 8 8 1 0 0).nx ^ 2 + (sphereVertexAt 8 8 1 0 0).ny ^ 2 +
      (sphereVertexAt 8 8 1 0 0).nz ^ 2 = 1 :=
  sphere_vertex_count_and_unit_normals.2 (sphereVertexAt 8 8 1 0 0)
    (List.mem_flatMap.mpr ⟨0, by simp [sphereVertices], List.mem_map.mpr ⟨0, by simp, rfl⟩⟩)

/-- C4: `LoadTorusMesh` clamps the segment counts up to at least 3 and
the tube radius up to at least 0.01; the generated mesh has exactly
`(mainSegments+1)*(tubeSegments+1)` vertices (the seam ring and seam
column are extra rows whose `u`, resp. `v`, texture coordinate reaches
1.0), exactly `6*mainSegments*tubeSegments` triangle indices, and every
generated index is strictly below the vertex count. -/
theorem torus_clamped_counts_and_index_bounds (mainRadius tubeRadius : ℝ)
    (mainSegments tubeSegments : ℤ) :
    3 ≤ clampSegments mainSegments ∧
    3 ≤ clampSegments tubeSegments ∧
    (0.01 : ℝ) ≤ clampTubeRadius tubeRadius ∧
    torusNVertices mainRadius tubeRadius mainSegments tubeSegments =
      (clampSegments mainSegments + 1) * (clampSegments tubeSegments + 1) ∧
    torusNIndices mainSegments tubeSegments =
      6 * (clampSegments mainSegments * clampSegments tubeSegments) ∧
    (∀ j, (torusVertexAt mainRadius (clampTubeRadius tubeRadius)
        (clampSegments mainSegments) (clampSegments tubeSegments)
        (clampSegments mainSegments) j).tu = 1) ∧
    (∀ i, (torusVertexAt mainRadius (clampTubeRadius tubeRadius)
        (clampSegments mainSegments) (clampSegments tubeSegments)
        i (clampSegments tubeSegments)).tv = 1) ∧
    (∀ idx ∈ torusIndices mainSegments tubeSegments,
      idx < (clampSegments mainSegments + 1) * (clampSegments tubeSegments + 1)) := by
  have hm3 : 3 ≤ clampSegments mainSegments := by
    have := le_max_left 3 mainSegments
    rw [clampSegments]
    omega
  have ht3 : 3 ≤ clampSegments tubeSegments := by
    have := le_max_left 3 tubeSegments
    rw [clampSegments]
    omega
  refine ⟨hm3, ht3, le_max_left 0.01 tubeRadius, ?_, ?_, ?_, ?_, ?_⟩
  · rw [torusNVertices, flattenR_length, torusVertices, length_grid]
    exact Nat.mul_div_cancel_left _ (by norm_num)
  · rw [torusNIndices, torusIndices,
      length_flatMap_const _ _ (6 * clampSegments tubeSegments)
        (fun i _ => by
          rw [length_flatMap_const _ _ 6 (fun j _ => by simp), List.length_range]
          ring),
      List.length_range]
    ring
  · intro j
    simp only [torusVertexAt]
    exact div_self (by positivity)
  · intro i
    simp only [torusVertexAt]
    exact div_self (by positivity)
  · intro idx hidx
    simp only [torusIndices] at hidx
    obtain ⟨i, hi, h2⟩ := List.mem_flatMap.mp hidx
    obtain ⟨j, hj, h3⟩ := List.mem_flatMap.mp h2
    rw [List.mem_range] at hi hj
    have hi1 : i + 1 ≤ clampSegments mainSegments := hi
    have hj1 : j + 1 ≤ clampSegments tubeSegments := hj
    simp only [List.mem_cons, List.not_mem_nil, or_false] at h3
    rcases h3 with rfl | rfl | rfl | rfl | rfl | rfl <;> nlinarith [hi1, hj1]

/-- Witness for C4: for a torus with radii 1 and 0.5 and 10 segments
each way, index 0 is generated and lies below the vertex count. -/
theorem torus_clamped_counts_and_index_bounds_witness :
    (0 ∈ torusIndices 10 10) ∧
    0 < (clampSegments 10 + 1) * (clampSegments 10 + 1) :=
  ⟨by decide,
   (torus_clamped_counts_and_index_bounds 1 0.5 10 10).2.2.2.2.2.2.2 0 (by decide)⟩

end OpenGLScene
